import Mathlib

/-!
Verification of the digital-stratification analysis core.

The Python sources under src/analysis are embedded shallowly:

* balance_calculator.py: the BalanceIndex class (calculate, ratio,
  interpretation) and the module-level convenience function
  calculate_balance_index.
* statistical_analysis.py: correlation_analysis, anova_analysis,
  digital_stratification_ratio and time_series_analysis of the
  DigitalStratificationAnalysis class.

Python floats are modelled as exact rationals; the IEEE special values
produced by numpy/pandas division (positive and negative infinity, NaN)
are modelled by the EFloat type below.  Fallible code is embedded in
Except.  External library calls (scipy.stats.pearsonr, the ANOVA
p-value) are parameters of the embedding, modelled from their
documented behaviour where a concrete instance is needed.
-/

/-- IEEE-style extended value: a finite rational, one of the two
infinities, or NaN.  Used wherever the Python code can produce an
infinite or NaN float. -/
inductive EFloat
  | fin (q : ℚ)
  | inf
  | negInf
  | nan
deriving DecidableEq

/-- Division of two finite floats, with the IEEE conventions for a zero
denominator: 0/0 is NaN, x/0 is signed infinity for x nonzero. -/
def efDivQ (a b : ℚ) : EFloat :=
  if b = 0 then
    if a = 0 then EFloat.nan
    else if 0 < a then EFloat.inf
    else EFloat.negInf
  else EFloat.fin (a / b)

/-- Division on extended values; NaN propagates, inf/inf is NaN. -/
def efDivE : EFloat → EFloat → EFloat
  | EFloat.nan, _ => EFloat.nan
  | _, EFloat.nan => EFloat.nan
  | EFloat.fin a, EFloat.fin b => efDivQ a b
  | EFloat.fin _, EFloat.inf => EFloat.fin 0
  | EFloat.fin _, EFloat.negInf => EFloat.fin 0
  | EFloat.inf, EFloat.fin b => if b < 0 then EFloat.negInf else EFloat.inf
  | EFloat.negInf, EFloat.fin b => if b < 0 then EFloat.inf else EFloat.negInf
  | EFloat.inf, EFloat.inf => EFloat.nan
  | EFloat.inf, EFloat.negInf => EFloat.nan
  | EFloat.negInf, EFloat.inf => EFloat.nan
  | EFloat.negInf, EFloat.negInf => EFloat.nan

/-- Errors the analysis code can signal.  The Python sources only ever
raise ValueError; the remaining constructors are the error classes named
by the specification (section 7), present so that claims about them can
be stated. -/
inductive AnalysisError
  | valueError (msg : String)
  | insufficientData
  | insufficientGroups
  | degenerateSpread
deriving DecidableEq

/-- The BalanceIndex calculator state: the two validated percentages and
the optional region tag, as set by the Python constructor. -/
structure BalanceIndex where
  stem_percent : ℚ
  humanities_percent : ℚ
  region : Option String := none

/-- Embeds BalanceIndex._validate_percentage: a percentage outside
the closed interval 0..100 raises ValueError naming the field. -/
def validate_percentage (value : ℚ) (field_name : String) : Except AnalysisError ℚ :=
  if 0 ≤ value ∧ value ≤ 100 then Except.ok value
  else Except.error (AnalysisError.valueError
    (field_name ++ " percentage must be between 0 and 100"))

/-- Embeds the BalanceIndex constructor: both inputs are validated (STEM
first), then stored. -/
def BalanceIndex.make (stem_percent humanities_percent : ℚ) :
    Except AnalysisError BalanceIndex := do
  let sv ← validate_percentage stem_percent "STEM"
  let hv ← validate_percentage humanities_percent "Humanities"
  pure ⟨sv, hv, none⟩

/-- Embeds BalanceIndex.calculate: 0.0 when both percentages are 0,
otherwise min over max (guarded by a positivity test on the max). -/
def BalanceIndex.calculate (b : BalanceIndex) : ℚ :=
  if b.stem_percent = 0 ∧ b.humanities_percent = 0 then 0
  else
    let max_pct := max b.stem_percent b.humanities_percent
    let min_pct := min b.stem_percent b.humanities_percent
    if 0 < max_pct then min_pct / max_pct else 0

/-- Embeds BalanceIndex.ratio: infinity or NaN sentinel when the
humanities percentage is zero, the plain quotient otherwise. -/
def BalanceIndex.ratio (b : BalanceIndex) : EFloat :=
  if b.humanities_percent = 0 then
    if 0 < b.stem_percent then EFloat.inf else EFloat.nan
  else EFloat.fin (b.stem_percent / b.humanities_percent)

/-- The dictionary returned by BalanceIndex.interpretation. -/
structure InterpretationResult where
  balance_index : ℚ
  stem_humanities_ratio : EFloat
  category : String
  interpretation : String
  recommendation : String
deriving DecidableEq

/-- Embeds BalanceIndex.interpretation: the if-elif chain on the
calculated score with thresholds 0.8, 0.6, 0.4, 0.2. -/
def BalanceIndex.interpretation (b : BalanceIndex) : InterpretationResult :=
  let balance_score := b.calculate
  let ratio_score := b.ratio
  if 0.8 ≤ balance_score then
    ⟨balance_score, ratio_score, "Excellent Balance",
      "Near-optimal educational equilibrium",
      "Maintain current balance while monitoring trends"⟩
  else if 0.6 ≤ balance_score then
    ⟨balance_score, ratio_score, "Good Balance",
      "Reasonable educational balance with room for improvement",
      "Minor adjustments to achieve optimal balance"⟩
  else if 0.4 ≤ balance_score then
    ⟨balance_score, ratio_score, "Moderate Imbalance",
      "Significant educational stratification present",
      "Systematic policy intervention needed"⟩
  else if 0.2 ≤ balance_score then
    ⟨balance_score, ratio_score, "Severe Imbalance",
      "Extreme educational stratification",
      "Urgent comprehensive reform required"⟩
  else
    ⟨balance_score, ratio_score, "Critical Imbalance",
      "Educational apartheid conditions",
      "Emergency intervention and complete restructuring needed"⟩

/-- Embeds the module-level convenience function calculate_balance_index:
construct the calculator (which validates) and call calculate. -/
def calculate_balance_index (stem_percent humanities_percent : ℚ) :
    Except AnalysisError ℚ := do
  let calculator ← BalanceIndex.make stem_percent humanities_percent
  pure calculator.calculate

/-- Spec-level restatement of the convenience function, written from the
claim: validation error (naming the first out-of-range field) on inputs
outside 0..100, otherwise the Balance Index formula with its 0.0 special
case. -/
def calcBalanceSpec (stem_percent humanities_percent : ℚ) : Except AnalysisError ℚ :=
  if ¬ (0 ≤ stem_percent ∧ stem_percent ≤ 100) then
    Except.error (AnalysisError.valueError "STEM percentage must be between 0 and 100")
  else if ¬ (0 ≤ humanities_percent ∧ humanities_percent ≤ 100) then
    Except.error (AnalysisError.valueError "Humanities percentage must be between 0 and 100")
  else Except.ok (
    if stem_percent = 0 ∧ humanities_percent = 0 then 0
    else if 0 < max stem_percent humanities_percent then
      min stem_percent humanities_percent / max stem_percent humanities_percent
    else 0)

/-- One row of the cross-sectional dataset (balance_index_47_countries.csv
after loading): region label, the two percentages, the precomputed
balance index column, and the correlate columns accessed by name. -/
structure CountryRecord where
  region : String
  stem_percent : ℚ
  humanities_percent : ℚ
  balance_index : ℚ
  correlates : String → ℚ

/-- Arithmetic mean of a list of rationals, as numpy mean on a nonempty
column. -/
def qmean (xs : List ℚ) : ℚ := xs.sum / (xs.length : ℚ)

/-- The six (column, display label) pairs hard-coded in
correlation_analysis. -/
def variablesList : List (String × String) :=
  [("democratic_participation_index", "Democratic Participation Index"),
   ("innovation_capacity_index", "Innovation Capacity Index"),
   ("civic_engagement_score", "Civic Engagement Score"),
   ("social_trust_level", "Social Trust Level"),
   ("patent_citations_per_capita", "Patent Citations (per capita)"),
   ("democratic_erosion_risk", "Democratic Erosion Risk")]

/-- The loop body of correlation_analysis over the requested variables.
For each variable it calls pearsonr (a parameter of the embedding, since
scipy is an external library; an error from it is scipy's ValueError for
undersized input), stores the pair (r, p) in the returned mapping, and
computes the value printed in the report row, which for
democratic_erosion_risk is the reassigned negated absolute value. -/
def corrLoop (pr : List ℚ → List ℚ → Except Unit (ℚ × ℚ))
    (bal : List ℚ) (d : List CountryRecord) :
    List (String × String) →
      Except AnalysisError (List ((String × ℚ × ℚ) × (String × ℚ)))
  | [] => Except.ok []
  | vl :: rest =>
    match pr bal (d.map fun row => row.correlates vl.1) with
    | Except.error _ =>
        Except.error (AnalysisError.valueError "x and y must have length at least 2.")
    | Except.ok (r, p) =>
      match corrLoop pr bal d rest with
      | Except.error e => Except.error e
      | Except.ok tail =>
          Except.ok (((vl.1, r, p),
            (vl.2, if vl.1 == "democratic_erosion_risk" then -|r| else r)) :: tail)

/-- Embeds DigitalStratificationAnalysis.correlation_analysis.  The
first component of the result is the correlations mapping the method
returns (variable, r, p in insertion order, with the r produced by
pearsonr stored unchanged); the second component is the table of
(label, r) values the method prints. -/
def correlation_analysis (pr : List ℚ → List ℚ → Except Unit (ℚ × ℚ))
    (d : List CountryRecord) :
    Except AnalysisError ((List (String × ℚ × ℚ)) × (List (String × ℚ))) :=
  match corrLoop pr (d.map (·.balance_index)) d variablesList with
  | Except.error e => Except.error e
  | Except.ok rows => Except.ok (rows.map Prod.fst, rows.map Prod.snd)

/-- Modelled from scipy.stats.pearsonr restricted to a pair of length-2
non-constant samples, the only shape the concrete evaluations below
use: two observations always lie on a line, so r is exactly 1 or -1
according to the sign of the paired differences, and the reported
two-sided p-value is 1.  Anything outside that shape is out of the
modelled domain and mapped to an error. -/
def pearsonr2 (xs ys : List ℚ) : Except Unit (ℚ × ℚ) :=
  match xs, ys with
  | [x0, x1], [y0, y1] =>
    if 0 < (x1 - x0) * (y1 - y0) then Except.ok (1, 1)
    else if (x1 - x0) * (y1 - y0) < 0 then Except.ok (-1, 1)
    else Except.error ()
  | _, _ => Except.error ()

/-- True exactly on an insufficient-data failure. -/
def isInsufficientDataError {α : Type} : Except AnalysisError α → Bool
  | Except.error AnalysisError.insufficientData => true
  | _ => false

/-- True exactly on a successful result. -/
def exceptIsOk {ε α : Type} : Except ε α → Bool
  | Except.ok _ => true
  | Except.error _ => false

/-- Modelled from the documented classical one-way ANOVA computed by
scipy.stats.f_oneway: between and within sums of squares about the grand
mean of the pooled data, mean squares with k - 1 and n - k degrees of
freedom, F their quotient, with IEEE division so that degenerate inputs
give NaN rather than raising. -/
def f_oneway (groups : List (List ℚ)) : EFloat :=
  efDivE
    (efDivQ ((groups.map fun g => (g.length : ℚ) * (qmean g - qmean groups.flatten) ^ 2).sum)
      ((groups.length : ℚ) - 1))
    (efDivQ ((groups.map fun g => ((g.map fun x => (x - qmean g) ^ 2).sum)).sum)
      ((groups.flatten.length : ℚ) - (groups.length : ℚ)))

/-- The distinct region labels of the dataset, as pandas unique. -/
def uniqueRegions (d : List CountryRecord) : List String :=
  (d.map (·.region)).dedup

/-- The balance_index column of the rows belonging to one region. -/
def regionGroup (d : List CountryRecord) (reg : String) : List ℚ :=
  (d.filter fun r => r.region == reg).map (·.balance_index)

/-- Embeds DigitalStratificationAnalysis.anova_analysis: the balance
index column is grouped by region, F and p come from f_oneway (p via the
parameter pval standing for the external F-distribution tail), and
eta squared is the hand-computed ss_between over ss_total, both taken
about the grand mean of the whole column.  Returns (F, p, eta_squared). -/
def anova_analysis (pval : EFloat → EFloat) (d : List CountryRecord) :
    EFloat × EFloat × EFloat :=
  (f_oneway ((uniqueRegions d).map (regionGroup d)),
   pval (f_oneway ((uniqueRegions d).map (regionGroup d))),
   efDivQ
     ((((uniqueRegions d).map (regionGroup d)).map fun g =>
       (g.length : ℚ) * (qmean g - qmean (d.map (·.balance_index))) ^ 2).sum)
     (((d.map (·.balance_index)).map fun x =>
       (x - qmean (d.map (·.balance_index))) ^ 2).sum))

/-- ss_total as the specification words it: the sum of squared
deviations of every balance_index value from the grand mean over all
observations. -/
def ssTotalSpec (d : List CountryRecord) : ℚ :=
  ((d.map (·.balance_index)).map fun x =>
    (x - qmean (d.map (·.balance_index))) ^ 2).sum

/-- ss_between as the specification words it: over the groups, group
size times the squared deviation of the group mean from the grand mean
over all observations. -/
def ssBetweenSpec (d : List CountryRecord) : ℚ :=
  ((uniqueRegions d).map fun reg =>
    ((regionGroup d reg).length : ℚ) *
      (qmean (regionGroup d reg) - qmean (d.map (·.balance_index))) ^ 2).sum

/-- Largest element of a nonempty list (0 on the empty list, which the
analysis never reaches). -/
def listMax : List ℚ → ℚ
  | [] => 0
  | x :: xs => xs.foldl max x

/-- Smallest element of a nonempty list (0 on the empty list, which the
analysis never reaches). -/
def listMin : List ℚ → ℚ
  | [] => 0
  | x :: xs => xs.foldl min x

/-- The cross-country spread of the stem_percent column. -/
def stemGap (d : List CountryRecord) : ℚ :=
  listMax (d.map (·.stem_percent)) - listMin (d.map (·.stem_percent))

/-- The cross-country spread of the humanities_percent column. -/
def humGap (d : List CountryRecord) : ℚ :=
  listMax (d.map (·.humanities_percent)) - listMin (d.map (·.humanities_percent))

/-- Embeds DigitalStratificationAnalysis.digital_stratification_ratio:
the quotient of the two spreads, computed unconditionally; a zero
humanities spread flows through IEEE division (infinity or NaN), no
error path exists in the method. -/
def digital_stratification_ratio (d : List CountryRecord) :
    Except AnalysisError EFloat :=
  Except.ok (efDivQ (stemGap d) (humGap d))

/-- One row of the longitudinal dataset (time_series_data.csv after
loading). -/
structure TimeSeriesPoint where
  region : String
  year : ℤ
  stem_percent : ℚ
  humanities_percent : ℚ
  balance_index : ℚ

/-- Insert into a sorted list of years. -/
def insertSorted (y : ℤ) : List ℤ → List ℤ
  | [] => [y]
  | x :: xs => if y ≤ x then y :: x :: xs else x :: insertSorted y xs

/-- Ascending sort, as the pandas groupby index. -/
def sortInts (l : List ℤ) : List ℤ := l.foldr insertSorted []

/-- Sorted distinct years of a set of rows, as the index of a pandas
groupby over the year column. -/
def groupYears (pts : List TimeSeriesPoint) : List ℤ :=
  sortInts ((pts.map (·.year)).dedup)

/-- Per-year means of a metric over the given rows, listed in the order
of the supplied year index (the groupby aggregation by mean). -/
def yearlyMeanSeries (pts : List TimeSeriesPoint) (metric : TimeSeriesPoint → ℚ)
    (years : List ℤ) : List ℚ :=
  years.map fun y => qmean ((pts.filter fun p => p.year == y).map metric)

/-- Ordinary least squares slope of ys against xs, paired positionally,
as sklearn LinearRegression coef on equal-length vectors. -/
def olsFit (xs ys : List ℚ) : ℚ :=
  let xbar := qmean xs
  let ybar := qmean ys
  ((xs.zip ys).map fun p => (p.1 - xbar) * (p.2 - ybar)).sum /
    ((xs.map fun x => (x - xbar) ^ 2).sum)

/-- Embeds DigitalStratificationAnalysis.time_series_analysis: the rows
are split into the Asia and Europe series, aggregated to per-year means,
and three slopes are fitted.  The independent variable of every fit,
including the Europe one, is the vector of Asia's years, exactly as the
method reuses its local variable; Europe's own year index is computed
but only its means enter the Europe fit.  Returns
(asia_stem_slope, asia_hum_slope, europe_stem_slope). -/
def time_series_analysis (ts : List TimeSeriesPoint) : ℚ × ℚ × ℚ :=
  let asia_ts := ts.filter fun p => p.region == "Asia"
  let europe_ts := ts.filter fun p => p.region == "Europe"
  let asia_years := groupYears asia_ts
  let europe_years := groupYears europe_ts
  let years := asia_years.map fun y => (y : ℚ)
  let asia_stem_slope := olsFit years (yearlyMeanSeries asia_ts (·.stem_percent) asia_years)
  let asia_hum_slope := olsFit years (yearlyMeanSeries asia_ts (·.humanities_percent) asia_years)
  let europe_stem_slope := olsFit years (yearlyMeanSeries europe_ts (·.stem_percent) europe_years)
  (asia_stem_slope, asia_hum_slope, europe_stem_slope)

/-- The trend contract as the specification words it: ordinary least
squares slope of the per-year means of the requested metric for the
requested region, with that region's own observed years as the
independent variable. -/
def trendSlopeSpec (ts : List TimeSeriesPoint) (reg : String)
    (metric : TimeSeriesPoint → ℚ) : ℚ :=
  let rts := ts.filter fun p => p.region == reg
  let years := groupYears rts
  olsFit (years.map fun y => (y : ℚ)) (yearlyMeanSeries rts metric years)

/-- Concrete two-country dataset whose balance index and every correlate
column rise together, so each true Pearson correlation is exactly 1. -/
def dataTwo : List CountryRecord :=
  [⟨"Asia", 40, 5, 1/10, fun _ => 1/10⟩,
   ⟨"Europe", 30, 15, 1/2, fun _ => 1/2⟩]

/-- Concrete four-country dataset with two regions whose groups are
internally constant, so all variance is between groups. -/
def dataC3 : List CountryRecord :=
  [⟨"Asia", 40, 5, 1/10, fun _ => 0⟩, ⟨"Asia", 42, 6, 1/10, fun _ => 0⟩,
   ⟨"Europe", 30, 15, 1/2, fun _ => 0⟩, ⟨"Europe", 32, 16, 1/2, fun _ => 0⟩]

/-- Concrete dataset in which every humanities percentage is identical,
so the humanities spread is zero while the STEM spread is positive. -/
def dataDegenerateHum : List CountryRecord :=
  [⟨"Asia", 40, 5, 1/10, fun _ => 0⟩, ⟨"Asia", 42, 5, 1/10, fun _ => 0⟩,
   ⟨"Europe", 44, 5, 1/10, fun _ => 0⟩]

/-- Concrete dataset with STEM percentages spanning 40 to 44 and
humanities percentages spanning 5 to 10. -/
def dataSpread : List CountryRecord :=
  [⟨"Asia", 40, 5, 1/10, fun _ => 0⟩, ⟨"Europe", 44, 10, 1/2, fun _ => 0⟩]

/-- Concrete dataset, two regions of two rows each, in which every
balance index value is the same. -/
def dataConstBalance : List CountryRecord :=
  [⟨"Asia", 40, 10, 1/4, fun _ => 0⟩, ⟨"Asia", 44, 11, 1/4, fun _ => 0⟩,
   ⟨"Europe", 30, 15, 1/4, fun _ => 0⟩, ⟨"Europe", 20, 5, 1/4, fun _ => 0⟩]

/-- Concrete time series in which both regions follow the same straight
line stem = 40 + 0.5 (year - 2015), but Asia is observed in 2015 and
2016 while Europe is observed in 2015 and 2021. -/
def tsBug : List TimeSeriesPoint :=
  [⟨"Asia", 2015, 40, 10, 1/4⟩, ⟨"Asia", 2016, 81/2, 10, 1/4⟩,
   ⟨"Europe", 2015, 40, 10, 1/4⟩, ⟨"Europe", 2021, 43, 10, 1/4⟩]

/-- The synthetic series of the specification: Asia observed every year
from 2015 to 2024 with stem = 40 + 0.5 (year - 2015). -/
def tsLinear : List TimeSeriesPoint :=
  [⟨"Asia", 2015, 40, 10, 1/4⟩, ⟨"Asia", 2016, 81/2, 10, 1/4⟩,
   ⟨"Asia", 2017, 41, 10, 1/4⟩, ⟨"Asia", 2018, 83/2, 10, 1/4⟩,
   ⟨"Asia", 2019, 42, 10, 1/4⟩, ⟨"Asia", 2020, 85/2, 10, 1/4⟩,
   ⟨"Asia", 2021, 43, 10, 1/4⟩, ⟨"Asia", 2022, 87/2, 10, 1/4⟩,
   ⟨"Asia", 2023, 44, 10, 1/4⟩, ⟨"Asia", 2024, 89/2, 10, 1/4⟩]

/-- Unfolding of calculate on explicit percentages. -/
theorem calculate_eq (s h : ℚ) (reg : Option String) :
    BalanceIndex.calculate ⟨s, h, reg⟩ =
      if s = 0 ∧ h = 0 then 0
      else if 0 < max s h then min s h / max s h else 0 := rfl

/-- C2: for inputs in the range 0 to 100 the Balance Index is 0 when
both percentages are 0 and min over max otherwise; it always lies
between 0 and 1, and equals 1 exactly when the two inputs are equal and
positive. -/
theorem balance_index_range_and_one (s h : ℚ)
    (h1 : 0 ≤ s) (h2 : s ≤ 100) (h3 : 0 ≤ h) (h4 : h ≤ 100) :
    (s = 0 ∧ h = 0 → BalanceIndex.calculate ⟨s, h, none⟩ = 0) ∧
    (0 < s ∨ 0 < h →
      BalanceIndex.calculate ⟨s, h, none⟩ = min s h / max s h) ∧
    0 ≤ BalanceIndex.calculate ⟨s, h, none⟩ ∧
    BalanceIndex.calculate ⟨s, h, none⟩ ≤ 1 ∧
    (BalanceIndex.calculate ⟨s, h, none⟩ = 1 ↔ s = h ∧ 0 < s) := by
  rw [calculate_eq]
  by_cases hz : s = 0 ∧ h = 0
  · obtain ⟨rfl, rfl⟩ := hz
    norm_num
  · have hpos : 0 < max s h := by
      rcases not_and_or.mp hz with hs | hh
      · exact lt_of_lt_of_le (lt_of_le_of_ne h1 (Ne.symm hs)) (le_max_left s h)
      · exact lt_of_lt_of_le (lt_of_le_of_ne h3 (Ne.symm hh)) (le_max_right s h)
    rw [if_neg hz, if_pos hpos]
    refine ⟨fun hc => absurd hc hz, fun _ => rfl, ?_, ?_, ?_⟩
    · exact div_nonneg (le_min h1 h3) hpos.le
    · exact (div_le_one hpos).mpr (min_le_max)
    · rw [div_eq_one_iff_eq (ne_of_gt hpos)]
      constructor
      · intro hmm
        have hsh : s = h := by
          rcases le_total s h with hle | hle
          · rw [min_eq_left hle, max_eq_right hle] at hmm; exact hmm
          · rw [min_eq_right hle, max_eq_left hle] at hmm; exact hmm.symm
        refine ⟨hsh, ?_⟩
        rw [hsh] at hpos ⊢
        simpa using hpos
      · rintro ⟨rfl, hs⟩
        simp

/-- Witness for C2 at the pair (50, 50). -/
theorem balance_index_range_and_one_witness :
    BalanceIndex.calculate ⟨50, 50, none⟩ = 1 :=
  (balance_index_range_and_one 50 50 (by norm_num) (by norm_num) (by norm_num)
    (by norm_num)).2.2.2.2.mpr ⟨rfl, by norm_num⟩

/-- C7: the qualitative category is the half-open step function of the
calculated index, with the thresholds 0.8, 0.6, 0.4, 0.2 all included
in the upper category, so that an index of exactly 0.8 is Excellent and
an index of exactly 0.2 is Severe. -/
theorem interpretation_step_function (s h : ℚ)
    (h1 : 0 ≤ s) (h2 : s ≤ 100) (h3 : 0 ≤ h) (h4 : h ≤ 100) :
    (0.8 ≤ BalanceIndex.calculate ⟨s, h, none⟩ →
      (BalanceIndex.interpretation ⟨s, h, none⟩).category = "Excellent Balance") ∧
    (0.6 ≤ BalanceIndex.calculate ⟨s, h, none⟩ ∧
        BalanceIndex.calculate ⟨s, h, none⟩ < 0.8 →
      (BalanceIndex.interpretation ⟨s, h, none⟩).category = "Good Balance") ∧
    (0.4 ≤ BalanceIndex.calculate ⟨s, h, none⟩ ∧
        BalanceIndex.calculate ⟨s, h, none⟩ < 0.6 →
      (BalanceIndex.interpretation ⟨s, h, none⟩).category = "Moderate Imbalance") ∧
    (0.2 ≤ BalanceIndex.calculate ⟨s, h, none⟩ ∧
        BalanceIndex.calculate ⟨s, h, none⟩ < 0.4 →
      (BalanceIndex.interpretation ⟨s, h, none⟩).category = "Severe Imbalance") ∧
    (BalanceIndex.calculate ⟨s, h, none⟩ < 0.2 →
      (BalanceIndex.interpretation ⟨s, h, none⟩).category = "Critical Imbalance") := by
  simp only [BalanceIndex.interpretation]
  split_ifs with hA hB hC hD <;>
    refine ⟨fun hx => ?_, fun hx => ?_, fun hx => ?_, fun hx => ?_, fun hx => ?_⟩ <;>
    first
      | rfl
      | (exfalso;
         first
           | exact absurd hx (by linarith)
           | exact absurd hx.1 (by linarith)
           | exact absurd hx.2 (by linarith))

/-- Witness for C7 at the exact boundaries: the pair (4, 5) has index
exactly 0.8 and the pair (1, 5) has index exactly 0.2. -/
theorem interpretation_step_function_witness :
    (BalanceIndex.interpretation ⟨4, 5, none⟩).category = "Excellent Balance" ∧
    (BalanceIndex.interpretation ⟨1, 5, none⟩).category = "Severe Imbalance" :=
  ⟨(interpretation_step_function 4 5 (by norm_num) (by norm_num) (by norm_num)
      (by norm_num)).1
      (by rw [show BalanceIndex.calculate ⟨4, 5, none⟩ = 4/5 from rfl]; norm_num),
   (interpretation_step_function 1 5 (by norm_num) (by norm_num) (by norm_num)
      (by norm_num)).2.2.2.1
      (by rw [show BalanceIndex.calculate ⟨1, 5, none⟩ = 1/5 from rfl]; norm_num)⟩

/-- C8: the STEM to humanities ratio is the positive-infinity sentinel
when humanities is 0 and STEM is positive, the NaN sentinel when both
are 0, and the plain quotient otherwise; no error is raised. -/
theorem ratio_sentinels (s h : ℚ)
    (h1 : 0 ≤ s) (h2 : s ≤ 100) (h3 : 0 ≤ h) (h4 : h ≤ 100) :
    (h = 0 → 0 < s → BalanceIndex.ratio ⟨s, h, none⟩ = EFloat.inf) ∧
    (h = 0 → s = 0 → BalanceIndex.ratio ⟨s, h, none⟩ = EFloat.nan) ∧
    (0 < h → BalanceIndex.ratio ⟨s, h, none⟩ = EFloat.fin (s / h)) := by
  refine ⟨fun h0 hs => ?_, fun h0 hs => ?_, fun hpos => ?_⟩
  · simp [BalanceIndex.ratio, h0, hs]
  · simp [BalanceIndex.ratio, h0, hs]
  · simp [BalanceIndex.ratio, ne_of_gt hpos]

/-- Witness for C8 at the pairs (100, 0) and (0, 0). -/
theorem ratio_sentinels_witness :
    BalanceIndex.ratio ⟨100, 0, none⟩ = EFloat.inf ∧
    BalanceIndex.ratio ⟨0, 0, none⟩ = EFloat.nan :=
  ⟨(ratio_sentinels 100 0 (by norm_num) (by norm_num) (by norm_num)
      (by norm_num)).1 rfl (by norm_num),
   (ratio_sentinels 0 0 (by norm_num) (by norm_num) (by norm_num)
      (by norm_num)).2.1 rfl rfl⟩

/-- Unfolding of the validating constructor into its three outcomes. -/
theorem make_eq (s h : ℚ) :
    BalanceIndex.make s h =
      if 0 ≤ s ∧ s ≤ 100 then
        if 0 ≤ h ∧ h ≤ 100 then Except.ok ⟨s, h, none⟩
        else Except.error (AnalysisError.valueError
          "Humanities percentage must be between 0 and 100")
      else Except.error (AnalysisError.valueError
        "STEM percentage must be between 0 and 100") := by
  unfold BalanceIndex.make validate_percentage
  split_ifs <;> rfl

/-- The convenience function is the constructor composed with calculate. -/
theorem calculate_balance_index_eq_map (s h : ℚ) :
    calculate_balance_index s h =
      (BalanceIndex.make s h).map (fun b => b.calculate) := by
  unfold calculate_balance_index BalanceIndex.make validate_percentage
  split_ifs <;> rfl

/-- C10: the module-level convenience function agrees exactly with
constructing a BalanceIndex and calling calculate, and both coincide
with the spec-level description, including the validation error on
out-of-range input. -/
theorem calculate_balance_index_refines (s h : ℚ) :
    calculate_balance_index s h =
      (BalanceIndex.make s h).map (fun b => b.calculate) ∧
    calculate_balance_index s h = calcBalanceSpec s h := by
  refine ⟨calculate_balance_index_eq_map s h, ?_⟩
  rw [calculate_balance_index_eq_map s h, make_eq s h]
  unfold calcBalanceSpec
  by_cases hs : 0 ≤ s ∧ s ≤ 100 <;> by_cases hh : 0 ≤ h ∧ h ≤ 100 <;>
    simp only [hs, hh, if_true, if_false, ite_true, ite_false, not_true, not_false_iff,
      if_neg, if_pos, Except.map, not_not, ite_not] <;>
    first
      | rfl
      | (rw [if_neg (by exact fun hc => hc hs), if_neg (by exact fun hc => hc hh)]; rfl)
      | (rw [if_neg (by exact fun hc => hc hs), if_pos hh]; rfl)
      | (rw [if_pos hs]; rfl)
      | (rw [if_pos hs, if_pos hh]; rfl)

/-- Sum of a constant list. -/
theorem sum_of_const (l : List ℚ) (c : ℚ) (h : ∀ x ∈ l, x = c) :
    l.sum = (l.length : ℚ) * c := by
  induction l with
  | nil => simp
  | cons a t ih =>
    simp only [List.sum_cons, List.length_cons]
    rw [h a (List.mem_cons_self a t), ih (fun x hx => h x (List.mem_cons_of_mem a hx))]
    push_cast
    ring

/-- Mean of a nonempty constant list. -/
theorem qmean_const (l : List ℚ) (c : ℚ) (h : ∀ x ∈ l, x = c) (hne : l ≠ []) :
    qmean l = c := by
  have hn : (l.length : ℚ) ≠ 0 :=
    Nat.cast_ne_zero.mpr (fun h0 => hne (List.length_eq_zero.mp h0))
  rw [qmean, sum_of_const l c h, mul_comm, mul_div_assoc, div_self hn, mul_one]

/-- Every element of a region group is a balance value of the dataset. -/
theorem regionGroup_const (d : List CountryRecord) (c : ℚ)
    (hc : ∀ r ∈ d, r.balance_index = c) (reg : String) :
    ∀ x ∈ regionGroup d reg, x = c := by
  intro x hx
  simp only [regionGroup, List.mem_map, List.mem_filter] at hx
  obtain ⟨r, ⟨hrd, _⟩, rfl⟩ := hx
  exact hc r hrd

/-- A region appearing in the dataset has a nonempty group. -/
theorem regionGroup_ne_nil (d : List CountryRecord) (reg : String)
    (h : reg ∈ uniqueRegions d) : regionGroup d reg ≠ [] := by
  simp only [uniqueRegions, List.mem_dedup, List.mem_map] at h
  obtain ⟨r, hrd, rfl⟩ := h
  have hmem : r.balance_index ∈ regionGroup d r.region := by
    simp only [regionGroup, List.mem_map]
    refine ⟨r, ?_, rfl⟩
    simp [List.mem_filter, hrd]
  exact List.ne_nil_of_mem hmem

/-- A quotient of two zero-numerator IEEE quotients is always NaN. -/
theorem efDivE_zero_zero (a b : ℚ) :
    efDivE (efDivQ 0 a) (efDivQ 0 b) = EFloat.nan := by
  rcases eq_or_ne a 0 with rfl | ha
  · simp [efDivQ, efDivE]
  · rcases eq_or_ne b 0 with rfl | hb
    · simp [efDivQ, efDivE, ha]
    · simp [efDivQ, efDivE, ha, hb]

/-- With every observation equal, the classical one-way F statistic is
NaN: both sums of squares vanish, so the mean squares are each 0 or NaN
and their quotient is NaN. -/
theorem f_oneway_const (groups : List (List ℚ)) (c : ℚ)
    (hg : ∀ g ∈ groups, ∀ x ∈ g, x = c)
    (hne : ∀ g ∈ groups, g ≠ []) (hgr : groups ≠ []) :
    f_oneway groups = EFloat.nan := by
  have hflat : ∀ x ∈ groups.flatten, x = c := by
    intro x hx
    obtain ⟨g, hgg, hxg⟩ := List.mem_flatten.mp hx
    exact hg g hgg x hxg
  have hflatne : groups.flatten ≠ [] := by
    obtain ⟨g, hgg⟩ := List.exists_mem_of_ne_nil groups hgr
    obtain ⟨x, hxg⟩ := List.exists_mem_of_ne_nil g (hne g hgg)
    exact List.ne_nil_of_mem (List.mem_flatten.mpr ⟨g, hgg, hxg⟩)
  have hgrand : qmean groups.flatten = c := qmean_const _ c hflat hflatne
  have hssbn :
      (groups.map fun g => (g.length : ℚ) * (qmean g - qmean groups.flatten) ^ 2).sum = 0 := by
    apply List.sum_eq_zero
    intro x hx
    obtain ⟨g, hgg, rfl⟩ := List.mem_map.mp hx
    rw [hgrand, qmean_const g c (hg g hgg) (hne g hgg)]
    ring
  have hsswn :
      (groups.map fun g => ((g.map fun x => (x - qmean g) ^ 2).sum)).sum = 0 := by
    apply List.sum_eq_zero
    intro x hx
    obtain ⟨g, hgg, rfl⟩ := List.mem_map.mp hx
    apply List.sum_eq_zero
    intro y hy
    obtain ⟨z, hzg, rfl⟩ := List.mem_map.mp hy
    rw [qmean_const g c (hg g hgg) (hne g hgg), hg g hgg z hzg]
    ring
  unfold f_oneway
  rw [hssbn, hsswn]
  exact efDivE_zero_zero _ _

/-- C3: the eta squared returned by the ANOVA is exactly the quotient of
the between-group and total sums of squares, both taken about the grand
mean over all observations of the balance index column. -/
theorem anova_eta_grand_mean (pval : EFloat → EFloat) (d : List CountryRecord)
    (hk : 2 ≤ (uniqueRegions d).length) (ht : ssTotalSpec d ≠ 0) :
    (anova_analysis pval d).2.2 = EFloat.fin (ssBetweenSpec d / ssTotalSpec d) := by
  have hAB : (anova_analysis pval d).2.2 = efDivQ (ssBetweenSpec d) (ssTotalSpec d) := by
    show efDivQ _ _ = _
    congr 1
    rw [ssBetweenSpec, List.map_map]
    rfl
  rw [hAB]
  unfold efDivQ
  rw [if_neg ht]

/-- Witness for C3 on a dataset with two internally constant regions:
the hypothesis of nonzero total variance holds and eta squared comes out
as the spec-side quotient, which there equals 1. -/
theorem anova_eta_grand_mean_witness :
    (anova_analysis (fun _ => EFloat.nan) dataC3).2.2 =
      EFloat.fin (ssBetweenSpec dataC3 / ssTotalSpec dataC3) ∧
    ssBetweenSpec dataC3 / ssTotalSpec dataC3 = 1 := by
  constructor
  · exact anova_eta_grand_mean (fun _ => EFloat.nan) dataC3
      (by simp [uniqueRegions, dataC3,
        List.dedup_cons_of_mem, List.dedup_cons_of_not_mem])
      (by norm_num [ssTotalSpec, dataC3, qmean])
  · have hreg : uniqueRegions dataC3 = ["Asia", "Europe"] := by
      simp [uniqueRegions, dataC3,
        List.dedup_cons_of_mem, List.dedup_cons_of_not_mem]
    simp only [ssBetweenSpec, ssTotalSpec, hreg]
    simp only [regionGroup, dataC3, qmean, List.filter_cons, List.filter_nil,
      List.map_cons, List.map_nil, List.sum_cons, List.sum_nil, List.length_cons,
      List.length_nil, beq_iff_eq, String.reduceEq, reduceIte]
    norm_num

/-- C5 amended: on a nonempty dataset with at least two regions whose
balance index column is constant, the ANOVA does not raise, and both the
F statistic and the eta squared it returns are NaN (eta squared is the
IEEE quotient 0/0), not the 0.0 the claim states. -/
theorem anova_constant_nan (pval : EFloat → EFloat) (d : List CountryRecord) (c : ℚ)
    (hk : 2 ≤ (uniqueRegions d).length)
    (hc : ∀ r ∈ d, r.balance_index = c) :
    (anova_analysis pval d).1 = EFloat.nan ∧
    (anova_analysis pval d).2.2 = EFloat.nan := by
  have hdne : d ≠ [] := by
    intro h0
    rw [h0] at hk
    simp [uniqueRegions] at hk
  have hbal : ∀ x ∈ d.map (·.balance_index), x = c := by
    intro x hx
    obtain ⟨r, hrd, rfl⟩ := List.mem_map.mp hx
    exact hc r hrd
  have hbalne : d.map (·.balance_index) ≠ [] := by
    simpa [List.map_eq_nil_iff] using hdne
  have hgrand : qmean (d.map (·.balance_index)) = c := qmean_const _ c hbal hbalne
  have hregne : uniqueRegions d ≠ [] := by
    intro h0
    rw [h0] at hk
    simp at hk
  constructor
  · show f_oneway ((uniqueRegions d).map (regionGroup d)) = EFloat.nan
    apply f_oneway_const _ c
    · intro g hgg
      obtain ⟨reg, hreg, rfl⟩ := List.mem_map.mp hgg
      exact regionGroup_const d c hc reg
    · intro g hgg
      obtain ⟨reg, hreg, rfl⟩ := List.mem_map.mp hgg
      exact regionGroup_ne_nil d reg hreg
    · simpa [List.map_eq_nil_iff] using hregne
  · show efDivQ
      ((((uniqueRegions d).map (regionGroup d)).map fun g =>
        (g.length : ℚ) * (qmean g - qmean (d.map (·.balance_index))) ^ 2).sum)
      (((d.map (·.balance_index)).map fun x =>
        (x - qmean (d.map (·.balance_index))) ^ 2).sum) = EFloat.nan
    have hssb :
        (((uniqueRegions d).map (regionGroup d)).map fun g =>
          (g.length : ℚ) * (qmean g - qmean (d.map (·.balance_index))) ^ 2).sum = 0 := by
      apply List.sum_eq_zero
      intro x hx
      obtain ⟨g, hgg, rfl⟩ := List.mem_map.mp hx
      obtain ⟨reg, hreg, rfl⟩ := List.mem_map.mp hgg
      rw [hgrand, qmean_const _ c (regionGroup_const d c hc reg) (regionGroup_ne_nil d reg hreg)]
      ring
    have hsst :
        ((d.map (·.balance_index)).map fun x =>
          (x - qmean (d.map (·.balance_index))) ^ 2).sum = 0 := by
      apply List.sum_eq_zero
      intro x hx
      obtain ⟨b, hbd, rfl⟩ := List.mem_map.mp hx
      rw [hgrand, hbal b hbd]
      ring
    rw [hssb, hsst]
    simp [efDivQ]

/-- Witness for C5 on the concrete constant-balance dataset. -/
theorem anova_constant_nan_witness :
    (anova_analysis (fun _ => EFloat.nan) dataConstBalance).1 = EFloat.nan ∧
    (anova_analysis (fun _ => EFloat.nan) dataConstBalance).2.2 = EFloat.nan :=
  anova_constant_nan (fun _ => EFloat.nan) dataConstBalance (1/4)
    (by simp [uniqueRegions, dataConstBalance,
      List.dedup_cons_of_mem, List.dedup_cons_of_not_mem])
    (by norm_num [dataConstBalance])

/-- C5 counterexample: on the concrete dataset whose balance index
column is constant (total sum of squares 0), the returned eta squared is
NaN, not the 0.0 the claim states. -/
theorem anova_constant_counterexample :
    ssTotalSpec dataConstBalance = 0 ∧
    (anova_analysis (fun _ => EFloat.nan) dataConstBalance).2.2 = EFloat.nan := by
  constructor
  · norm_num [ssTotalSpec, dataConstBalance, qmean]
  · have hreg : uniqueRegions dataConstBalance = ["Asia", "Europe"] := by
      simp [uniqueRegions, dataConstBalance,
        List.dedup_cons_of_mem, List.dedup_cons_of_not_mem]
    simp only [anova_analysis]
    rw [hreg]
    simp only [regionGroup, dataConstBalance, qmean, List.filter_cons, List.filter_nil,
      List.map_cons, List.map_nil, List.sum_cons, List.sum_nil, List.length_cons,
      List.length_nil, beq_iff_eq, String.reduceEq, reduceIte]
    norm_num [efDivQ]

/-- C4 amended: the stratification ratio computation never raises; on a
nonempty dataset it returns the IEEE quotient of the two spreads, and
when the humanities column has zero spread while the STEM column has
positive spread that quotient is the silent infinity sentinel, not a
DegenerateSpreadError. -/
theorem ratio_no_degenerate_error (d : List CountryRecord) (hne : d ≠ []) :
    digital_stratification_ratio d = Except.ok (efDivQ (stemGap d) (humGap d)) ∧
    (humGap d = 0 → 0 < stemGap d →
      digital_stratification_ratio d = Except.ok EFloat.inf) := by
  refine ⟨rfl, fun h0 hpos => ?_⟩
  unfold digital_stratification_ratio efDivQ
  rw [h0, if_pos rfl, if_neg (ne_of_gt hpos), if_pos hpos]

/-- Witness for C4 on the dataset with STEM spread 4 and humanities
spread 5: the computation succeeds and the ratio is 4/5. -/
theorem ratio_no_degenerate_error_witness :
    digital_stratification_ratio dataSpread =
      Except.ok (efDivQ (stemGap dataSpread) (humGap dataSpread)) ∧
    efDivQ (stemGap dataSpread) (humGap dataSpread) = EFloat.fin (4/5) := by
  refine ⟨(ratio_no_degenerate_error dataSpread (by simp [dataSpread])).1, ?_⟩
  norm_num [efDivQ, stemGap, humGap, listMax, listMin, dataSpread, max_def, min_def]

/-- C4 counterexample: on the concrete dataset with all humanities
percentages equal and positive STEM spread, the computation succeeds
with the infinity sentinel instead of failing with
DegenerateSpreadError. -/
theorem ratio_degenerate_counterexample :
    humGap dataDegenerateHum = 0 ∧
    digital_stratification_ratio dataDegenerateHum = Except.ok EFloat.inf := by
  constructor
  · norm_num [humGap, listMax, listMin, dataDegenerateHum, max_def, min_def]
  · norm_num [digital_stratification_ratio, efDivQ, stemGap, humGap, listMax, listMin,
      dataDegenerateHum, max_def, min_def]

/-- The correlation loop can only fail by propagating pearsonr's
ValueError; it never produces an insufficient-data failure. -/
theorem corrLoop_no_insufficient (pr : List ℚ → List ℚ → Except Unit (ℚ × ℚ))
    (bal : List ℚ) (d : List CountryRecord) :
    ∀ vars, isInsufficientDataError (corrLoop pr bal d vars) = false := by
  intro vars
  induction vars with
  | nil => rfl
  | cons vl rest ih =>
    simp only [corrLoop]
    cases hpr : pr bal (d.map fun row => row.correlates vl.1) with
    | error u => rfl
    | ok rp =>
      obtain ⟨r, p⟩ := rp
      cases hrec : corrLoop pr bal d rest with
      | error e => rw [hrec] at ih; exact ih
      | ok tail => rfl

/-- With a total pearsonr the correlation loop computes one row per
requested variable, storing the returned r and showing the reassigned
value for the erosion-risk variable. -/
theorem corrLoop_total (f : List ℚ → List ℚ → ℚ × ℚ)
    (bal : List ℚ) (d : List CountryRecord) :
    ∀ vars, corrLoop (fun xs ys => Except.ok (f xs ys)) bal d vars =
      Except.ok (vars.map fun vl =>
        ((vl.1, f bal (d.map fun row => row.correlates vl.1)),
         (vl.2, if vl.1 == "democratic_erosion_risk"
           then -|(f bal (d.map fun row => row.correlates vl.1)).1|
           else (f bal (d.map fun row => row.correlates vl.1)).1))) := by
  intro vars
  induction vars with
  | nil => rfl
  | cons vl rest ih =>
    simp only [corrLoop, ih, List.map_cons]

/-- C6 amended: the correlation analysis performs no record-count check
and never fails with an insufficient-data error; whenever pearsonr
succeeds on the columns it returns one (r, p) pair per requested
variable. -/
theorem correlation_no_size_check
    (pr : List ℚ → List ℚ → Except Unit (ℚ × ℚ))
    (f : List ℚ → List ℚ → ℚ × ℚ) (d : List CountryRecord) :
    isInsufficientDataError (correlation_analysis pr d) = false ∧
    correlation_analysis (fun xs ys => Except.ok (f xs ys)) d =
      Except.ok
        (variablesList.map fun vl =>
          (vl.1, f (d.map (·.balance_index)) (d.map fun row => row.correlates vl.1)),
         variablesList.map fun vl =>
          (vl.2, if vl.1 == "democratic_erosion_risk"
            then -|(f (d.map (·.balance_index)) (d.map fun row => row.correlates vl.1)).1|
            else (f (d.map (·.balance_index)) (d.map fun row => row.correlates vl.1)).1)) := by
  constructor
  · unfold correlation_analysis
    cases hres : corrLoop pr (d.map (·.balance_index)) d variablesList with
    | error e =>
      have hno := corrLoop_no_insufficient pr (d.map (·.balance_index)) d variablesList
      rw [hres] at hno
      cases e with
      | valueError msg => rfl
      | insufficientData => simp [isInsufficientDataError] at hno
      | insufficientGroups => rfl
      | degenerateSpread => rfl
    | ok rows => rfl
  · unfold correlation_analysis
    rw [corrLoop_total f (d.map (·.balance_index)) d variablesList]
    simp only [List.map_map]
    rfl

/-- C6 counterexample: a concrete two-record dataset (fewer than three
records) on which the correlation analysis succeeds instead of failing
with InsufficientDataError. -/
theorem correlation_small_counterexample :
    dataTwo.length = 2 ∧
    exceptIsOk (correlation_analysis pearsonr2 dataTwo) = true := by
  constructor
  · rfl
  · norm_num [correlation_analysis, corrLoop, variablesList, pearsonr2, dataTwo, exceptIsOk]

/-- C1: evaluation of the correlation analysis on the concrete dataset
whose balance index and erosion-risk columns rise together.  The true
Pearson r for democratic_erosion_risk is 1 and is stored as 1 in the
returned mapping, but the reported table row shows the reassigned value
minus the absolute value of r, that is -1: the printed coefficient's
sign is forced negative. -/
theorem correlation_erosion_sign_forced :
    correlation_analysis pearsonr2 dataTwo =
      Except.ok
        ([("democratic_participation_index", 1, 1),
          ("innovation_capacity_index", 1, 1),
          ("civic_engagement_score", 1, 1),
          ("social_trust_level", 1, 1),
          ("patent_citations_per_capita", 1, 1),
          ("democratic_erosion_risk", 1, 1)],
         [("Democratic Participation Index", 1),
          ("Innovation Capacity Index", 1),
          ("Civic Engagement Score", 1),
          ("Social Trust Level", 1),
          ("Patent Citations (per capita)", 1),
          ("Democratic Erosion Risk", -1)]) := by
  norm_num [correlation_analysis, corrLoop, variablesList, pearsonr2, dataTwo]
  decide

/-- C9: evaluation of the time-series analysis on the concrete series in
which both regions follow stem = 40 + 0.5 (year - 2015) but are observed
in different years.  The Asia slope comes out as 0.5 as the claim says,
and the spec-side trend for Europe over Europe's own years (2015, 2021)
is also 0.5; but the returned Europe slope is 3, because the fit pairs
Europe's yearly means with Asia's year vector (2015, 2016).  The last
conjunct checks the claim's ten-year synthetic series. -/
theorem time_series_europe_years_bug :
    time_series_analysis tsBug = (1/2, 0, 3) ∧
    trendSlopeSpec tsBug "Europe" (fun p => p.stem_percent) = 1/2 ∧
    trendSlopeSpec tsLinear "Asia" (fun p => p.stem_percent) = 1/2 := by
  have hA : tsBug.filter (fun p => p.region == "Asia") =
      [⟨"Asia", 2015, 40, 10, 1/4⟩, ⟨"Asia", 2016, 81/2, 10, 1/4⟩] := by
    simp [tsBug, List.filter_cons]
  have hE : tsBug.filter (fun p => p.region == "Europe") =
      [⟨"Europe", 2015, 40, 10, 1/4⟩, ⟨"Europe", 2021, 43, 10, 1/4⟩] := by
    simp [tsBug, List.filter_cons]
  have hL : tsLinear.filter (fun p => p.region == "Asia") = tsLinear := by
    simp [tsLinear, List.filter_cons]
  refine ⟨?_, ?_, ?_⟩
  · simp only [time_series_analysis]
    rw [hA, hE]
    simp [groupYears, sortInts, insertSorted, yearlyMeanSeries, olsFit, qmean,
      List.filter_cons, List.dedup_cons_of_not_mem, List.dedup_cons_of_mem,
      List.zip_cons_cons]
    norm_num
  · simp only [trendSlopeSpec]
    rw [hE]
    simp [groupYears, sortInts, insertSorted, yearlyMeanSeries, olsFit, qmean,
      List.filter_cons, List.dedup_cons_of_not_mem, List.dedup_cons_of_mem,
      List.zip_cons_cons]
    norm_num
  · simp only [trendSlopeSpec]
    rw [hL]
    simp [tsLinear, groupYears, sortInts, insertSorted, yearlyMeanSeries, olsFit, qmean,
      List.filter_cons, List.dedup_cons_of_not_mem, List.dedup_cons_of_mem,
      List.zip_cons_cons]
    norm_num
